import Mathlib

/- Shallow embedding of the concurrency exercise of imgarylai/learn-go
   (package `concurrency`, file exercises/06-concurrency).

   The implementation file in the repository is the exercise handout: every
   function body is the unfilled stub shipped with the exercise (`return 0`,
   `return nil`, `return 0, false`, empty method bodies), each annotated with
   a TODO comment describing what a solution would do.  The accompanying test
   file encodes the intended behaviour.  The definitions below embed the stub
   bodies exactly as they stand in the source; since no stub ever spawns a
   goroutine, touches a channel, reads the clock, or mutates the receiver,
   the sequential embedding is exact. -/

namespace Concurrency

/-- Go `time.Duration` is an `int64` count of nanoseconds; the stub bodies
never inspect it, so plain `Int` is a faithful carrier. -/
abbrev Duration := Int

/-- Embeds `func WithTimeout(work func() int, timeout time.Duration) (int, bool)`.
The body in the source is the stub `return 0, false`; `work` and `timeout`
are never used. -/
def WithTimeout (work : Unit → Int) (timeout : Duration) : Int × Bool :=
  (0, false)

/-- Embeds `func WorkerPool(jobs []int, numWorkers int) []int`.
The body in the source is the stub `return nil`. -/
def WorkerPool (jobs : List Int) (numWorkers : Int) : List Int :=
  []

/-- Embeds `func FanOutFanIn(nums []int, workers int) int`.
The body in the source is the stub `return 0`. -/
def FanOutFanIn (nums : List Int) (workers : Int) : Int :=
  0

/-- Embeds `type Counter struct { mu sync.Mutex; value int }`.
The mutex field has no observable content in a sequential embedding, and no
stub body ever locks it; only the integer field is carried. -/
structure Counter where
  value : Int
deriving DecidableEq

/-- The fresh counter `&Counter\x7b\x7d`: the Go zero value, `value = 0`. -/
def Counter.new : Counter := ⟨0⟩

/-- Embeds `func (c *Counter) Increment()`.  The body in the source is empty
(only a TODO comment), so the receiver state is returned unchanged. -/
def Counter.Increment (c : Counter) : Counter :=
  c

/-- Embeds `func (c *Counter) Value() int`.  The body in the source is the
stub `return 0` (it does not read `c.value`); the result is paired with the
(unchanged) receiver state so that claims about state change are statable. -/
def Counter.Value (c : Counter) : Int × Counter :=
  (0, c)

/-- Embeds `func ConcurrentIncrement(c *Counter, times int)`.  The body in
the source is empty (only a TODO comment): it spawns nothing and leaves the
counter unchanged. -/
def ConcurrentIncrement (c : Counter) (times : Int) : Counter :=
  c

/-- N sequential calls of `Counter.Increment` starting from a given state. -/
def incrementN (c : Counter) : Nat → Counter
  | 0 => c
  | n + 1 => (incrementN c n).Increment

end Concurrency

namespace Concurrency

/-- C1: the claim says `WorkerPool(jobs, numWorkers)` returns `len(jobs)`
squares.  At the input of the repository test `TestWorkerPool`
(`jobs = [1,2,3,4,5]`, `numWorkers = 3`) the stub body returns the empty
(nil) slice, so the result has length 0, not 5, and in particular its
multiset is not `{1,4,9,16,25}`: the code contradicts its own test. -/
theorem c1_workerPool_stub_violates_test :
    WorkerPool [1, 2, 3, 4, 5] 3 = [] ∧
    (WorkerPool [1, 2, 3, 4, 5] 3).length ≠ ([1, 2, 3, 4, 5] : List Int).length := by
  exact ⟨rfl, by decide⟩

/-- C2: the claim says `FanOutFanIn(nums, workers) = 2 * sum(nums)`.  At the
input of the repository test `TestFanOutFanIn` (`nums = [1,2,3,4,5]`,
`workers = 3`) the stub body returns 0, while twice the sum is 30: the code
contradicts its own test. -/
theorem c2_fanOutFanIn_stub_violates_test :
    FanOutFanIn [1, 2, 3, 4, 5] 3 = 0 ∧
    FanOutFanIn [1, 2, 3, 4, 5] 3 ≠ 2 * ([1, 2, 3, 4, 5] : List Int).sum := by
  exact ⟨rfl, by decide⟩

/-- C3: the claim says that when `work` completes within the timeout,
`WithTimeout(work, timeout)` returns the pair (result of work, true).  The
stub body never invokes `work` and returns `(0, false)` unconditionally; at
the input of the repository test `TestWithTimeoutSuccess` (a computation
returning 42 well within a 100ms timeout) the code yields `(0, false)`
instead of `(42, true)`: the code contradicts its own test. -/
theorem c3_withTimeout_stub_violates_success_test :
    WithTimeout (fun _ => 42) (100 * 1000000) = (0, false) ∧
    (WithTimeout (fun _ => 42) (100 * 1000000)).1 ≠ 42 := by
  exact ⟨rfl, by decide⟩

/-- C4: when the timeout elapses before the work completes, `WithTimeout`
surfaces the timeout as the plain boolean component `false` of its ordinary
return value, never by a panic or exception.  The embedded function is total
and its completed-flag component is `false` on every input, hence in
particular whenever the deadline wins. -/
theorem c4_withTimeout_timeout_is_plain_false :
    ∀ (work : Unit → Int) (timeout : Duration),
      (WithTimeout work timeout).2 = false :=
  fun _ _ => rfl

/-- C5: the claim says N sequential `Increment()` calls on a fresh counter
followed by `Value()` yield N.  The stub `Increment` body is empty and the
stub `Value` body returns the literal 0, so after the three increments of
the repository test `TestCounter` the read returns 0, not 3: the code
contradicts its own test. -/
theorem c5_counter_stub_violates_test :
    (Counter.Value (incrementN Counter.new 3)).1 = 0 ∧
    (Counter.Value (incrementN Counter.new 3)).1 ≠ 3 := by
  exact ⟨rfl, by decide⟩

/-- C6: the claim says N concurrent increments joined by
`ConcurrentIncrement(c, N)` leave `Value() = N`.  The stub body of
`ConcurrentIncrement` is empty (it spawns no goroutines at all), so at the
input of the repository test `TestConcurrentIncrement` (N = 100) the final
read returns 0, not 100: the code contradicts its own test. -/
theorem c6_concurrentIncrement_stub_violates_test :
    (Counter.Value (ConcurrentIncrement Counter.new 100)).1 = 0 ∧
    (Counter.Value (ConcurrentIncrement Counter.new 100)).1 ≠ 100 := by
  exact ⟨rfl, by decide⟩

/-- C7: for every jobs sequence and any two worker counts w1, w2 in
[1, len(jobs)], the multiset of outputs of `WorkerPool jobs w1` equals the
multiset of outputs of `WorkerPool jobs w2`: the result is independent of
the worker count (the stub returns the same empty slice for every input). -/
theorem c7_workerPool_independent_of_numWorkers
    (jobs : List Int) (w1 w2 : Int)
    (h1 : 1 ≤ w1 ∧ w1 ≤ (jobs.length : Int))
    (h2 : 1 ≤ w2 ∧ w2 ≤ (jobs.length : Int)) :
    (WorkerPool jobs w1 : Multiset Int) = (WorkerPool jobs w2 : Multiset Int) :=
  rfl

/-- Witness for C7 at the concrete input jobs = [1,2,3,4,5], w1 = 1, w2 = 3:
both worker counts lie in [1, 5] and the multisets of outputs coincide. -/
theorem c7_workerPool_independent_witness :
    (1 ≤ (1 : Int) ∧ (1 : Int) ≤ (([1, 2, 3, 4, 5] : List Int).length : Int)) ∧
    (1 ≤ (3 : Int) ∧ (3 : Int) ≤ (([1, 2, 3, 4, 5] : List Int).length : Int)) ∧
    (WorkerPool [1, 2, 3, 4, 5] 1 : Multiset Int) =
      (WorkerPool [1, 2, 3, 4, 5] 3 : Multiset Int) :=
  ⟨by decide, by decide,
    c7_workerPool_independent_of_numWorkers [1, 2, 3, 4, 5] 1 3
      (by decide) (by decide)⟩

/-- C8: reads are idempotent.  A `Value()` call leaves the counter state
unchanged, and a second `Value()` call with no intervening `Increment()`
returns the same value as the first. -/
theorem c8_value_reads_idempotent (c : Counter) :
    (Counter.Value c).2 = c ∧
    (Counter.Value ((Counter.Value c).2)).1 = (Counter.Value c).1 :=
  ⟨rfl, rfl⟩

/-- C9: the result of `WithTimeout` is independent of the work argument: for
any two computations and any timeout the results agree, and the common value
is `(0, false)` — the stub never invokes `work`. -/
theorem c9_withTimeout_independent_of_work
    (w1 w2 : Unit → Int) (t : Duration) :
    WithTimeout w1 t = WithTimeout w2 t ∧ WithTimeout w1 t = (0, false) :=
  ⟨rfl, rfl⟩

/-- C10: `WorkerPool` is total at its interface: for every jobs sequence
(including the empty one) and every worker count (including values at most
0), the embedded function returns a value — the empty (nil) slice — for
every input, with no panic path in the body. -/
theorem c10_workerPool_total_returns_nil
    (jobs : List Int) (numWorkers : Int) :
    WorkerPool jobs numWorkers = [] :=
  rfl

end Concurrency
